import Mathlib

/-!
Shallow embedding of `homework.py` / `exceptions.py` (a Telegram homework
status bot).  Python values are modelled by the inductive `PyVal`; Python
exceptions by the inductive `Exc`; fallible functions return `Except Exc _`.
Logging and `time.sleep` are side effects with no influence on the data flow
and are omitted.  Function and constant names follow the source.
-/

/-- Python values as they occur in this program: `None`, booleans, ints,
strings, lists and string-keyed dicts (JSON-shaped data). -/
inductive PyVal where
  | none
  | bool (b : Bool)
  | int (n : Int)
  | str (s : String)
  | list (xs : List PyVal)
  | dict (kvs : List (String × PyVal))

mutual

/-- Structural equality on `PyVal`, mirroring Python `==` on JSON-shaped
values (dicts compared entry-wise; entry order is irrelevant in Python but
all dicts this program compares are built with the single key `сообщение`,
so entry-wise comparison is faithful here). -/
def pyBeq : PyVal → PyVal → Bool
  | .none, .none => true
  | .bool a, .bool b => a == b
  | .int a, .int b => a == b
  | .str a, .str b => a == b
  | .list xs, .list ys => pyListBeq xs ys
  | .dict xs, .dict ys => pyDictBeq xs ys
  | _, _ => false

/-- Element-wise equality of Python lists. -/
def pyListBeq : List PyVal → List PyVal → Bool
  | [], [] => true
  | x :: xs, y :: ys => pyBeq x y && pyListBeq xs ys
  | _, _ => false

/-- Entry-wise equality of Python dicts. -/
def pyDictBeq : List (String × PyVal) → List (String × PyVal) → Bool
  | [], [] => true
  | (k1, v1) :: xs, (k2, v2) :: ys => k1 == k2 && pyBeq v1 v2 && pyDictBeq xs ys
  | _, _ => false

end

mutual

/-- `repr()` of a value (used by `str()` for elements inside containers). -/
def pyRepr : PyVal → String
  | .none => "None"
  | .bool b => if b then "True" else "False"
  | .int n => toString n
  | .str s => "'" ++ s ++ "'"
  | .list xs => "[" ++ pyReprList xs ++ "]"
  | .dict kvs => "\x7b" ++ pyReprDict kvs ++ "\x7d"

/-- Comma-separated reprs of list elements. -/
def pyReprList : List PyVal → String
  | [] => ""
  | [x] => pyRepr x
  | x :: xs => pyRepr x ++ ", " ++ pyReprList xs

/-- Comma-separated reprs of dict entries. -/
def pyReprDict : List (String × PyVal) → String
  | [] => ""
  | [(k, v)] => "'" ++ k ++ "': " ++ pyRepr v
  | (k, v) :: kvs => "'" ++ k ++ "': " ++ pyRepr v ++ ", " ++ pyReprDict kvs

end

/-- Python `str()` as used by f-string interpolation: a string interpolates
verbatim, other values via their repr. -/
def pyStr : PyVal → String
  | .str s => s
  | v => pyRepr v

/-- Python exceptions relevant to this program.  The `env*` constructors are
exception classes raised by the library collaborators (`requests.get`,
`response.json()`); the rest are raised by the program itself or by the
interpreter. -/
inductive Exc where
  /-- `requests.RequestException` (network/transport failure). -/
  | envRequestException
  /-- `json.decoder.JSONDecodeError` raised by `response.json()`. -/
  | envJSONDecodeError
  /-- a `ValueError` that is neither a `JSONDecodeError` nor a
  `requests.RequestException`. -/
  | envValueError
  /-- any other exception raised by a library collaborator. -/
  | envOtherError
  /-- `exceptions.WrongResponse`. -/
  | wrongResponse
  /-- `exceptions.RequestError`. -/
  | requestError
  /-- `exceptions.JSONDecodeError`. -/
  | jsonDecodeError
  /-- `exceptions.EmptyAnswersAPI`. -/
  | emptyAnswersAPI
  /-- builtin `ConnectionError` raised by `get_api_answer`'s catch-all. -/
  | connectionError
  /-- builtin `KeyError` with its message. -/
  | keyError (msg : String)
  /-- builtin `ValueError` with its message. -/
  | valueError (msg : String)
  /-- builtin `TypeError` with its message. -/
  | typeError (msg : String)
  /-- builtin `AttributeError` (attribute access on a value lacking it). -/
  | attributeError
  /-- `UnboundLocalError`: a local variable referenced before assignment. -/
  | unboundLocalError
  /-- `TypeError: catching classes that do not inherit from BaseException
  is not allowed`, raised by the interpreter when an `except` clause
  expression evaluates to a non-exception-class value. -/
  | exceptTypeError
deriving DecidableEq, Repr

/-- Does the exception match `except json.decoder.JSONDecodeError`? -/
def isJSONDecodeErrorClass : Exc → Bool
  | .envJSONDecodeError => true
  | _ => false

/-- Does the exception match `except requests.RequestException`? -/
def isRequestExceptionClass : Exc → Bool
  | .envRequestException => true
  | _ => false

/-- Does the exception match `except ValueError`?  (`JSONDecodeError` is a
subclass of `ValueError`.) -/
def isValueErrorClass : Exc → Bool
  | .envJSONDecodeError => true
  | .envValueError => true
  | .valueError _ => true
  | _ => false

/-- `d.get(k)` on the entry list of a dict: the value under `k`, if present. -/
def dictGet (kvs : List (String × PyVal)) (k : String) : Option PyVal :=
  (kvs.find? (fun p => p.1 == k)).map (fun p => p.2)

/-- `v.get(k)`: dict lookup returning `None` for an absent key; on a
non-dict value the attribute access raises `AttributeError`. -/
def pyGet (v : PyVal) (k : String) : Except Exc PyVal :=
  match v with
  | .dict kvs => .ok ((dictGet kvs k).getD .none)
  | _ => .error .attributeError

/-- `v.get(k, d)`: dict lookup with default; `AttributeError` on a non-dict. -/
def pyGetDefault (v : PyVal) (k : String) (d : PyVal) : Except Exc PyVal :=
  match v with
  | .dict kvs => .ok ((dictGet kvs k).getD d)
  | _ => .error .attributeError

/-- `HOMEWORK_VERDICTS` (homework.py line 43). -/
def HOMEWORK_VERDICTS : List (String × String) :=
  [("approved", "Работа проверена: ревьюеру всё понравилось. Ура!"),
   ("reviewing", "Работа взята на проверку ревьюером."),
   ("rejected", "Работа проверена: у ревьюера есть замечания.")]

/-- `homework_status in HOMEWORK_VERDICTS`: Python `in` on a dict tests key
membership under `==`; only a string can equal a string key. -/
def verdictLookup : PyVal → Option String
  | .str s => (HOMEWORK_VERDICTS.find? (fun p => p.1 == s)).map (fun p => p.2)
  | _ => Option.none

/-- `check_response` (homework.py lines 94-103): reject a non-dict
(`TypeError`), a dict lacking `homeworks` (`EmptyAnswersAPI`), a
non-list `homeworks` value (`KeyError`); otherwise return the list. -/
def check_response (response : PyVal) : Except Exc (List PyVal) :=
  match response with
  | .dict kvs =>
    match dictGet kvs "homeworks" with
    | Option.none => .error .emptyAnswersAPI
    | Option.some homeworks =>
      match homeworks with
      | .list xs => .ok xs
      | _ => .error (.keyError "homework не является списком!")
  | _ => .error (.typeError "homework не является словарем!")

/-- The f-string returned by `parse_status` (homework.py lines 118-121),
given the interpolated name text and the verdict text. -/
def statusMessage (name verdict : String) : String :=
  "Изменился статус проверки работы \"" ++ name ++ "\". " ++ verdict ++
  "homework_name = " ++ name ++ ", verdict = " ++ verdict

/-- `parse_status` (homework.py lines 106-121): `KeyError` when
`homework_name` or `status` is absent or `None`, `ValueError` when the
status is not a key of `HOMEWORK_VERDICTS`, else the formatted message. -/
def parse_status (homework : PyVal) : Except Exc String :=
  match pyGet homework "homework_name" with
  | .error e => .error e
  | .ok homework_name =>
    match homework_name with
    | .none => .error (.keyError "У homework нет имени")
    | _ =>
      match pyGet homework "status" with
      | .error e => .error e
      | .ok homework_status =>
        match homework_status with
        | .none => .error (.keyError "У homework нет статуса")
        | _ =>
          match verdictLookup homework_status with
          | Option.none =>
            .error (.valueError ("Ошибка статуса homework : " ++ pyStr homework_status))
          | Option.some verdict => .ok (statusMessage (pyStr homework_name) verdict)

/-- The three environment variables read at module load
(homework.py lines 34-36); `none` models an unset variable. -/
structure Env where
  PRACTICUM_TOKEN : Option String
  TELEGRAM_TOKEN : Option String
  TELEGRAM_CHAT_ID : Option String

/-- Python truthiness of an `os.getenv` result: `None` and `''` are falsy. -/
def truthyEnv : Option String → Bool
  | Option.none => false
  | Option.some s => !(s.isEmpty)

/-- `check_tokens` (homework.py lines 124-136).  The `tokens` tuple is
embedded exactly as written in the source: the entry labelled `ID чата`
pairs the label with `TELEGRAM_TOKEN`, not `TELEGRAM_CHAT_ID`. -/
def check_tokens (env : Env) : Bool :=
  let tokens : List (String × Option String) :=
    [("Практикум токен", env.PRACTICUM_TOKEN),
     ("Телеграм токен", env.TELEGRAM_TOKEN),
     ("ID чата", env.TELEGRAM_TOKEN)]
  tokens.foldl (fun check p => if !truthyEnv p.2 then false else check) true

/-- The behavior of `response.json()` in a given call: a parsed value, or a
raised exception. -/
inductive JsonOutcome where
  | val (v : PyVal)
  | raises (e : Exc)

/-- The behavior of the HTTP collaborator in one call of `get_api_answer`:
either `requests.get` raises, or it returns a response object with a status
code and a `.json()` behavior. -/
inductive FetchEvent where
  | getRaises (e : Exc)
  | resp (status : Nat) (body : JsonOutcome)

/-- The try block of `get_api_answer` (homework.py lines 71-80): a
non-200 status raises `exceptions.WrongResponse`; otherwise the parsed
body is returned, or the exception `.json()` raised propagates. -/
def getApiTryBody : FetchEvent → Except Exc PyVal
  | .getRaises e => .error e
  | .resp status body =>
    if status ≠ 200 then .error .wrongResponse
    else
      match body with
      | .val v => .ok v
      | .raises e => .error e

/-- `get_api_answer` (homework.py lines 61-91).  The handlers are applied
in source order to whatever the try block raised.  Note that the
`WrongResponse` raised at line 78 is itself inside the try block: it
matches none of the three specific clauses and is caught by
`except Exception`, which raises `ConnectionError`.  A plain `ValueError`
is only logged and the function falls through to its implicit `return
None`, modelled as `.ok .none`. -/
def get_api_answer (ev : FetchEvent) : Except Exc PyVal :=
  match getApiTryBody ev with
  | .ok v => .ok v
  | .error e =>
    if isJSONDecodeErrorClass e then .error .jsonDecodeError
    else if isRequestExceptionClass e then .error .requestError
    else if isValueErrorClass e then .ok .none
    else .error .connectionError

/-- The behavior of `bot.send_message` in a given call. -/
inductive SendOutcome where
  | delivered
  | telegramError
deriving DecidableEq, Repr

/-- `send_message` (homework.py lines 50-58): `True` on success, `False`
when the bot raises a `telegram.error.TelegramError`. -/
def send_message : SendOutcome → Bool
  | .delivered => true
  | .telegramError => false

/-- The local variables of `main` that persist across loop iterations.
`current_report` and `prev_report` are single-key dicts in the source
(only the key `сообщение` is ever written), modelled by their value under
that key, `none` meaning the empty dict.  `response` and `message` are
`none` while the local variable has not been assigned yet. -/
structure MainState where
  current_timestamp : PyVal
  current_report : Option PyVal
  prev_report : Option PyVal
  response : Option PyVal
  message : Option String

/-- `current_report != prev_report` on the report model (Python dict
equality, restricted to the single key in use). -/
def reportBeq : Option PyVal → Option PyVal → Bool
  | Option.none, Option.none => true
  | Option.some a, Option.some b => pyBeq a b
  | _, _ => false

/-- The state at loop entry (homework.py lines 144-146):
`current_timestamp = 0`, both reports empty, `response` and `message`
unassigned. -/
def initState : MainState :=
  { current_timestamp := .int 0, current_report := Option.none,
    prev_report := Option.none, response := Option.none,
    message := Option.none }

/-- `main`'s startup (homework.py lines 141-146): when `check_tokens` is
false a `KeyError` is raised before the loop; otherwise the loop is
entered at `initState`. -/
def main_entry (env : Env) : Except Exc MainState :=
  if !check_tokens env then
    .error (.keyError "Отсутствуют токены чата. Программа остановлена")
  else .ok initState

/-- The environment behavior of one loop iteration: what the HTTP
collaborator does, and what the bot does if a send is attempted. -/
structure CycleInput where
  fetch : FetchEvent
  send : SendOutcome

/-- The notification tail of the try block (homework.py lines 156-161).
Returns the state after it, the messages passed to `send_message`, and the
exception it raised, if any.  `send_message`'s return value is discarded by
the source: the guard on line 158 is `if send_message:`, which tests the
function object itself and is therefore always truthy, so the report and
cursor updates run regardless of the delivery outcome.  Referencing the
unassigned local `message` raises `UnboundLocalError`. -/
def mainTryNotify (s : MainState) (_inp : CycleInput) :
    MainState × List String × Option Exc :=
  if reportBeq s.current_report s.prev_report then (s, [], Option.none)
  else
    match s.message with
    | Option.none => (s, [], Option.some .unboundLocalError)
    | Option.some msg =>
      -- `send_message(bot, message)` is called here (recorded in the sent
      -- list); its Boolean result — `send_message inp.send` — is discarded,
      -- and the guard on line 158 is always truthy, so the updates below
      -- run whatever the delivery outcome was.
      match s.response with
      | Option.none =>
        ({ s with prev_report := s.current_report }, [msg],
          Option.some .unboundLocalError)
      | Option.some r =>
        match pyGetDefault r "current_date" s.current_timestamp with
        | .error e =>
          ({ s with prev_report := s.current_report }, [msg], Option.some e)
        | .ok ts =>
          ({ s with prev_report := s.current_report, current_timestamp := ts },
            [msg], Option.none)

/-- The try block of one loop iteration (homework.py lines 148-161):
returns the state after the block, the messages passed to `send_message`,
and the exception raised inside the block, if any.  The local `response`
is assigned only when `get_api_answer` returns. -/
def mainTry (s : MainState) (inp : CycleInput) :
    MainState × List String × Option Exc :=
  match get_api_answer inp.fetch with
  | .error e => (s, [], Option.some e)
  | .ok resp =>
    match check_response resp with
    | .error e => ({ s with response := Option.some resp }, [], Option.some e)
    | .ok statuses =>
      match statuses with
      | [] => mainTryNotify { s with response := Option.some resp } inp
      | status :: _ =>
        match parse_status status with
        | .error e => ({ s with response := Option.some resp }, [], Option.some e)
        | .ok msg =>
          match pyGet status "status" with
          | .error e =>
            ({ s with response := Option.some resp,
                      message := Option.some msg }, [], Option.some e)
          | .ok homework_status =>
            mainTryNotify
              { s with response := Option.some resp,
                       message := Option.some msg,
                       current_report := Option.some homework_status } inp

/-- The outcome of one loop iteration: either control reaches the end of
the body and the loop continues with the new state (`next`), or an
exception escapes the `while` loop (`crash`).  Both record the messages
passed to `send_message` during the iteration. -/
inductive CycleResult where
  | next (s : MainState) (sent : List String)
  | crash (e : Exc) (s : MainState) (sent : List String)

/-- One iteration of the `while True` loop (homework.py lines 147-175),
including the interpreter semantics of its `except` clauses.  When the try
block raises, CPython evaluates the first clause's expression
`response is None` (line 162): if the local `response` was never assigned,
this evaluation raises `UnboundLocalError`; otherwise the expression
yields a `bool`, and matching an exception against a value that is not an
exception class raises `TypeError: catching classes that do not inherit
from BaseException is not allowed`.  Either new exception propagates at
once — later clauses are not consulted — so the `except Exception` handler
(lines 166-173) is unreachable and every exception raised in the try block
escapes the loop (the `finally: time.sleep(RETRY_TIME)` still runs
first). -/
def mainCycle (s : MainState) (inp : CycleInput) : CycleResult :=
  match mainTry s inp with
  | (s1, sent, Option.none) => .next s1 sent
  | (s1, sent, Option.some _e) =>
    match s1.response with
    | Option.none => .crash .unboundLocalError s1 sent
    | Option.some _ => .crash .exceptTypeError s1 sent

/-- Run consecutive loop iterations, stopping when one crashes; the result
is that of the last iteration run. -/
def runCycles (s : MainState) : List CycleInput → CycleResult
  | [] => .next s []
  | [inp] => mainCycle s inp
  | inp :: rest =>
    match mainCycle s inp with
    | .next s1 _ => runCycles s1 rest
    | r => r

/-- The messages passed to `send_message` during an iteration. -/
def sentOf : CycleResult → List String
  | .next _ sent => sent
  | .crash _ _ sent => sent

/-- The state carried by an iteration's result. -/
def stateOf : CycleResult → MainState
  | .next s _ => s
  | .crash _ s _ => s

/-- Did the iteration complete without an exception escaping the loop? -/
def isNext : CycleResult → Bool
  | .next _ _ => true
  | .crash _ _ _ => false

/-- The cursor value `response.get('current_date', current_timestamp)`
would produce on the notification path, given the bound `response`. -/
def cursorUpdate (resp : Option PyVal) (old : PyVal) : PyVal :=
  match resp with
  | Option.some (.dict kvs) => (dictGet kvs "current_date").getD old
  | _ => old

/-- A homework record as in end-to-end scenario 1 of the spec. -/
def hwProj1 : PyVal :=
  .dict [("homework_name", .str "proj1"), ("status", .str "approved")]

/-- The same status under a different homework name. -/
def hwProj2 : PyVal :=
  .dict [("homework_name", .str "proj2"), ("status", .str "approved")]

/-- A server response carrying `hwProj1` and `current_date = 100`. -/
def respDay1 : PyVal :=
  .dict [("homeworks", .list [hwProj1]), ("current_date", .int 100)]

/-- A later response: same record, `current_date = 200`. -/
def respDay2 : PyVal :=
  .dict [("homeworks", .list [hwProj1]), ("current_date", .int 200)]

/-- A later response: same status under a new name, `current_date = 200`. -/
def respDay2ren : PyVal :=
  .dict [("homeworks", .list [hwProj2]), ("current_date", .int 200)]

/-- C1: the claim fails on the code.  An exception raised inside a poll
cycle is NOT caught at the loop boundary: when the try block raises, the
clause `except response is None:` is evaluated — with `response` unbound
(first cycle, fetch failed) this raises `UnboundLocalError`; with
`response` bound it yields a `bool` and the match raises `TypeError`.
Either exception escapes the `while` loop, so the loop does not proceed to
the next cycle. -/
theorem C1_cycle_exception_escapes_loop :
    mainCycle initState ⟨.getRaises .envRequestException, .delivered⟩ =
      .crash .unboundLocalError initState [] ∧
    mainCycle initState ⟨.resp 200 (.val .none), .delivered⟩ =
      .crash .exceptTypeError { initState with response := Option.some .none } [] :=
  ⟨rfl, rfl⟩

/-- C2: the claim fails on the code.  With the chat identifier unset and
the two tokens set, `check_tokens` still returns `True` — the tuple entry
labelled `ID чата` re-checks `TELEGRAM_TOKEN` instead of
`TELEGRAM_CHAT_ID` — so `main` enters the poll loop. -/
theorem C2_missing_chat_id_enters_loop :
    check_tokens ⟨Option.some "a", Option.some "b", Option.none⟩ = true ∧
    main_entry ⟨Option.some "a", Option.some "b", Option.none⟩ = .ok initState :=
  ⟨rfl, rfl⟩

/-- C7 counterexample: at HTTP status 503 the caller receives a
`ConnectionError`, not the `WrongResponse` kind: the `WrongResponse`
raised at line 78 sits inside the try block and is converted by the
function's own `except Exception` clause. -/
theorem C7_counterexample :
    get_api_answer (.resp 503 (.val .none)) = .error .connectionError ∧
    (Except.error .connectionError : Except Exc PyVal) ≠ .error .wrongResponse := by
  refine ⟨rfl, fun h => ?_⟩
  exact absurd (Except.error.inj h) (by decide)

/-- C7 (amended): the failure kinds of `get_api_answer` as the caller sees
them: any non-200 status yields `ConnectionError` (the internally raised
`WrongResponse` is swallowed by the catch-all), a JSON decoding failure
yields the `exceptions.JSONDecodeError` kind, a transport failure yields
the `exceptions.RequestError` kind; the function issues a single request,
so no failure is retried inside it. -/
theorem C7_failure_kinds :
    (∀ status body, status ≠ 200 →
        get_api_answer (.resp status body) = .error .connectionError) ∧
    (get_api_answer (.resp 200 (.raises .envJSONDecodeError)) =
        .error .jsonDecodeError) ∧
    (∀ e, isRequestExceptionClass e = true →
        get_api_answer (.getRaises e) = .error .requestError) := by
  refine ⟨?_, rfl, ?_⟩
  · intro status body hs
    simp [get_api_answer, getApiTryBody, hs, isJSONDecodeErrorClass,
      isRequestExceptionClass, isValueErrorClass]
  · intro e he
    cases e <;> simp_all [get_api_answer, getApiTryBody,
      isJSONDecodeErrorClass, isRequestExceptionClass, isValueErrorClass]

/-- C7 witness: status 503 yields `ConnectionError`; a transport failure
yields the `RequestError` kind. -/
theorem C7_failure_kinds_witness :
    get_api_answer (.resp 503 (.val .none)) = .error .connectionError ∧
    get_api_answer (.getRaises .envRequestException) = .error .requestError :=
  ⟨C7_failure_kinds.1 503 (.val .none) (by decide),
   C7_failure_kinds.2.2 .envRequestException rfl⟩

/-- C8: `check_response` on a mapping raises `EmptyAnswersAPI` exactly
when the `homeworks` key is absent, raises a `KeyError` when the value
under it is not a list, and returns the list unchanged (the empty list
included) otherwise. -/
theorem C8_check_response_spec (kvs : List (String × PyVal)) :
    (check_response (.dict kvs) = .error .emptyAnswersAPI ↔
      dictGet kvs "homeworks" = Option.none) ∧
    (∀ xs, dictGet kvs "homeworks" = Option.some (.list xs) →
        check_response (.dict kvs) = .ok xs) ∧
    (∀ v, dictGet kvs "homeworks" = Option.some v → (∀ xs, v ≠ .list xs) →
        check_response (.dict kvs) =
          .error (.keyError "homework не является списком!")) := by
  refine ⟨⟨fun h => ?_, fun h => ?_⟩, fun xs h => ?_, fun v h hne => ?_⟩
  · cases hdg : dictGet kvs "homeworks" with
    | none => rfl
    | some v =>
      exfalso
      simp only [check_response] at h
      rw [hdg] at h
      cases v <;> simp at h
  · simp only [check_response]; rw [h]
  · simp only [check_response]; rw [h]
  · simp only [check_response]; rw [h]
    cases v <;> first | rfl | exact absurd rfl (hne _)

/-- C8 witness: an empty `homeworks` list is accepted and returned; a
mapping without the key raises `EmptyAnswersAPI`. -/
theorem C8_check_response_spec_witness :
    check_response (.dict [("homeworks", .list [])]) = .ok [] ∧
    check_response (.dict []) = .error .emptyAnswersAPI :=
  ⟨(C8_check_response_spec [("homeworks", .list [])]).2.1 [] rfl,
   (C8_check_response_spec []).1.mpr rfl⟩

/-- C10: a `ValueError` from body parsing that is neither a
`json.decoder.JSONDecodeError` nor a `requests.RequestException` is only
logged by its handler, and `get_api_answer` falls through to its implicit
`return None`: the caller observes `None` instead of a parsed object or an
exception. -/
theorem C10_value_error_returns_none (e : Exc)
    (hval : isValueErrorClass e = true)
    (hjson : isJSONDecodeErrorClass e = false)
    (hreq : isRequestExceptionClass e = false) :
    get_api_answer (.resp 200 (.raises e)) = .ok .none := by
  simp [get_api_answer, getApiTryBody, hjson, hreq, hval]

/-- C10 witness: a plain `ValueError` makes the caller observe `None`. -/
theorem C10_value_error_returns_none_witness :
    get_api_answer (.resp 200 (.raises .envValueError)) = .ok .none :=
  C10_value_error_returns_none .envValueError rfl rfl rfl

/-- Helper: on an exception-free run of the notification tail, the
compared report and the bound response are unchanged, and the cursor is
advanced from the bound response's `current_date` exactly when the two
reports differ. -/
theorem mainTryNotify_next (s : MainState) (inp : CycleInput)
    (s' : MainState) (sent : List String)
    (h : mainTryNotify s inp = (s', sent, Option.none)) :
    s'.current_report = s.current_report ∧ s'.response = s.response ∧
    s'.current_timestamp =
      (if reportBeq s.current_report s.prev_report then s.current_timestamp
       else cursorUpdate s.response s.current_timestamp) := by
  unfold mainTryNotify at h
  split at h
  case isTrue hb =>
    simp only [Prod.mk.injEq] at h
    obtain ⟨h1, -, -⟩ := h
    subst h1
    simp [hb]
  case isFalse hb =>
    split at h
    case h_1 => simp at h
    case h_2 msg hm =>
      split at h
      case h_1 => simp at h
      case h_2 r hr =>
        split at h
        case h_1 => simp at h
        case h_2 ts hts =>
          simp only [Prod.mk.injEq] at h
          obtain ⟨h1, -, -⟩ := h
          subst h1
          cases r with
          | dict rkvs =>
            simp only [pyGetDefault, Except.ok.injEq] at hts
            simp [hb, cursorUpdate, hr, ← hts]
          | _ => simp [pyGetDefault] at hts

/-- C3 (amended): in every loop iteration that completes without an
exception, the cursor is advanced to the server-reported `current_date`
(keeping its previous value if that key is absent) exactly when the
cycle's report differs from the previous report — i.e. when the
notification branch runs; in successful cycles with an unchanged report
the cursor keeps its previous value. -/
theorem C3_cursor_advance (s : MainState) (inp : CycleInput)
    (s' : MainState) (sent : List String)
    (h : mainCycle s inp = .next s' sent) :
    s'.current_timestamp =
      if reportBeq s'.current_report s.prev_report then s.current_timestamp
      else cursorUpdate s'.response s.current_timestamp := by
  unfold mainCycle at h
  rcases hmt : mainTry s inp with ⟨s1, sent1, exc⟩
  rw [hmt] at h
  cases exc with
  | some e =>
    exfalso
    obtain ⟨ts1, cr1, pr1, rs1, ms1⟩ := s1
    cases rs1 <;> exact CycleResult.noConfusion h
  | none =>
    injection h with h1 h2
    subst h1
    subst h2
    unfold mainTry at hmt
    split at hmt
    · simp at hmt
    · split at hmt
      · simp at hmt
      · split at hmt
        · obtain ⟨e1, e2, e3⟩ := mainTryNotify_next _ inp _ _ hmt
          dsimp only at e1 e2 e3
          rw [e1, e2]
          exact e3
        · split at hmt
          · simp at hmt
          · split at hmt
            · simp at hmt
            · obtain ⟨e1, e2, e3⟩ := mainTryNotify_next _ inp _ _ hmt
              dsimp only at e1 e2 e3
              rw [e1, e2]
              exact e3

/-- C3 counterexample: two consecutive successful cycles carrying the same
status; the second response reports `current_date = 200`, yet after the
second cycle the cursor still holds the value 100 taken in the first
cycle, because the cursor update sits inside the notification branch,
which is skipped when the report is unchanged. -/
theorem C3_counterexample :
    isNext (runCycles initState
      [⟨.resp 200 (.val respDay1), .delivered⟩,
       ⟨.resp 200 (.val respDay2), .delivered⟩]) = true ∧
    (stateOf (runCycles initState
      [⟨.resp 200 (.val respDay1), .delivered⟩,
       ⟨.resp 200 (.val respDay2), .delivered⟩])).current_timestamp =
      .int 100 ∧
    PyVal.int 100 ≠ PyVal.int 200 := by
  refine ⟨rfl, rfl, fun h => ?_⟩
  exact absurd (PyVal.int.inj h) (by decide)

/-- A loop state whose last notified report is the status `approved`. -/
def stateApproved : MainState :=
  { current_timestamp := .int 0,
    current_report := Option.some (.str "approved"),
    prev_report := Option.some (.str "approved"),
    response := Option.none, message := Option.none }

/-- The state after running one cycle from `stateApproved` on `respDay2`:
the report is unchanged, so the cursor keeps the value 0. -/
def stateAfterSame : MainState :=
  { current_timestamp := .int 0,
    current_report := Option.some (.str "approved"),
    prev_report := Option.some (.str "approved"),
    response := Option.some respDay2,
    message := Option.some (statusMessage "proj1"
      "Работа проверена: ревьюеру всё понравилось. Ура!") }

/-- C3 witness: the amended cursor rule evaluated on a concrete
unchanged-status cycle. -/
theorem C3_cursor_advance_witness :
    stateAfterSame.current_timestamp =
      if reportBeq stateAfterSame.current_report stateApproved.prev_report
      then stateApproved.current_timestamp
      else cursorUpdate stateAfterSame.response stateApproved.current_timestamp :=
  C3_cursor_advance stateApproved ⟨.resp 200 (.val respDay2), .delivered⟩
    stateAfterSame [] rfl

/-- C4: the claim fails on the code.  A delivery failure (`send_message`
returns `False`) does not prevent the report update: the guard
`if send_message:` on line 158 tests the function object, which is always
truthy, so `prev_report` is advanced and the cycle's outcome does not
depend on the delivery outcome at all. -/
theorem C4_report_advanced_despite_failed_send :
    send_message .telegramError = false ∧
    mainCycle initState ⟨.resp 200 (.val respDay1), .telegramError⟩ =
      mainCycle initState ⟨.resp 200 (.val respDay1), .delivered⟩ ∧
    (stateOf (mainCycle initState
      ⟨.resp 200 (.val respDay1), .telegramError⟩)).prev_report =
      Option.some (.str "approved") ∧
    sentOf (mainCycle initState
      ⟨.resp 200 (.val respDay1), .telegramError⟩) =
      [statusMessage "proj1" "Работа проверена: ревьюеру всё понравилось. Ура!"] :=
  ⟨rfl, rfl, rfl, rfl⟩

/-- Helper: full characterization of a cycle on a valid response whose
primary record carries the fields `(name, st)` with a known status: the
report key written for change detection is the status value alone, and
the notification branch runs exactly when it differs from `prev_report`. -/
theorem mainCycle_first_record (s : MainState) (inp : CycleInput)
    (kvs hkvs : List (String × PyVal)) (rest : List PyVal)
    (name st verdict : String)
    (hfetch : inp.fetch = .resp 200 (.val (.dict kvs)))
    (hhw : dictGet kvs "homeworks" = Option.some (.list (.dict hkvs :: rest)))
    (hname : dictGet hkvs "homework_name" = Option.some (.str name))
    (hst : dictGet hkvs "status" = Option.some (.str st))
    (hv : verdictLookup (.str st) = Option.some verdict) :
    mainCycle s inp =
      if reportBeq (Option.some (.str st)) s.prev_report then
        .next { s with response := Option.some (.dict kvs),
                       message := Option.some (statusMessage name verdict),
                       current_report := Option.some (.str st) } []
      else
        .next { s with response := Option.some (.dict kvs),
                       message := Option.some (statusMessage name verdict),
                       current_report := Option.some (.str st),
                       prev_report := Option.some (.str st),
                       current_timestamp :=
                         (dictGet kvs "current_date").getD s.current_timestamp }
          [statusMessage name verdict] := by
  have hga : get_api_answer inp.fetch = .ok (.dict kvs) := by
    rw [hfetch]
    simp [get_api_answer, getApiTryBody]
  have hcr : check_response (.dict kvs) = .ok (.dict hkvs :: rest) := by
    simp only [check_response]
    rw [hhw]
  have hps : parse_status (.dict hkvs) = .ok (statusMessage name verdict) := by
    simp only [parse_status, pyGet]
    rw [hname, hst]
    simp only [Option.getD_some]
    rw [hv]
    rfl
  have hpgs : pyGet (.dict hkvs) "status" = .ok (.str st) := by
    simp only [pyGet]
    rw [hst]
    rfl
  unfold mainCycle mainTry
  simp only [hga, hcr, hps, hpgs]
  unfold mainTryNotify
  dsimp only
  by_cases hb : reportBeq (Option.some (.str st)) s.prev_report
  · rw [if_pos hb, if_pos hb]
  · rw [if_neg hb, if_neg hb]
    simp [pyGetDefault]

/-- C5: with a previously notified status `prev`, a cycle on a valid
response whose primary record carries `(name, st)` with a known status
emits zero notifications when `st = prev`, and exactly one — whose text
`statusMessage name verdict` is a function of the record's name and
status — when `st ≠ prev`. -/
theorem C5_change_detection (s : MainState) (inp : CycleInput)
    (kvs hkvs : List (String × PyVal)) (rest : List PyVal)
    (name st prev verdict : String)
    (hfetch : inp.fetch = .resp 200 (.val (.dict kvs)))
    (hhw : dictGet kvs "homeworks" = Option.some (.list (.dict hkvs :: rest)))
    (hname : dictGet hkvs "homework_name" = Option.some (.str name))
    (hst : dictGet hkvs "status" = Option.some (.str st))
    (hv : verdictLookup (.str st) = Option.some verdict)
    (hprev : s.prev_report = Option.some (.str prev)) :
    ∃ s1, mainCycle s inp =
      .next s1 (if st = prev then [] else [statusMessage name verdict]) := by
  have h := mainCycle_first_record s inp kvs hkvs rest name st verdict
    hfetch hhw hname hst hv
  rw [hprev] at h
  by_cases he : st = prev
  · subst he
    rw [if_pos (show reportBeq (Option.some (.str st))
        (Option.some (.str st)) = true by simp [reportBeq, pyBeq])] at h
    exact ⟨_, by rw [h, if_pos rfl]⟩
  · rw [if_neg (show ¬reportBeq (Option.some (.str st))
        (Option.some (.str prev)) = true by simp [reportBeq, pyBeq, he])] at h
    exact ⟨_, by rw [h, if_neg he]⟩

/-- A loop state whose last notified report is the status `reviewing`. -/
def stateReviewing : MainState :=
  { current_timestamp := .int 0,
    current_report := Option.some (.str "reviewing"),
    prev_report := Option.some (.str "reviewing"),
    response := Option.none, message := Option.none }

/-- C5 witness: a status change `reviewing → approved` on a concrete
response produces exactly the one formatted notification. -/
theorem C5_change_detection_witness :
    ∃ s1, mainCycle stateReviewing ⟨.resp 200 (.val respDay1), .delivered⟩ =
      .next s1 (if "approved" = "reviewing" then []
        else [statusMessage "proj1"
          "Работа проверена: ревьюеру всё понравилось. Ура!"]) :=
  C5_change_detection stateReviewing ⟨.resp 200 (.val respDay1), .delivered⟩
    [("homeworks", .list [hwProj1]), ("current_date", .int 100)]
    [("homework_name", .str "proj1"), ("status", .str "approved")] []
    "proj1" "approved" "reviewing"
    "Работа проверена: ревьюеру всё понравилось. Ура!"
    rfl rfl rfl rfl rfl rfl

/-- C6 (amended): the change-detection key is the status value alone: a
cycle whose primary record carries the same status as the previously
notified report emits no notification, whatever homework name the record
carries — a name change alone does not count as a change. -/
theorem C6_status_only_key (s : MainState) (inp : CycleInput)
    (kvs hkvs : List (String × PyVal)) (rest : List PyVal)
    (name st verdict : String)
    (hfetch : inp.fetch = .resp 200 (.val (.dict kvs)))
    (hhw : dictGet kvs "homeworks" = Option.some (.list (.dict hkvs :: rest)))
    (hname : dictGet hkvs "homework_name" = Option.some (.str name))
    (hst : dictGet hkvs "status" = Option.some (.str st))
    (hv : verdictLookup (.str st) = Option.some verdict)
    (hprev : s.prev_report = Option.some (.str st)) :
    ∃ s1, mainCycle s inp = .next s1 [] := by
  have h := mainCycle_first_record s inp kvs hkvs rest name st verdict
    hfetch hhw hname hst hv
  rw [hprev] at h
  rw [if_pos (show reportBeq (Option.some (.str st))
      (Option.some (.str st)) = true by simp [reportBeq, pyBeq])] at h
  exact ⟨_, h⟩

/-- C6 witness: with `approved` previously notified, a record named
`proj2` carrying `approved` emits nothing. -/
theorem C6_status_only_key_witness :
    ∃ s1, mainCycle stateApproved ⟨.resp 200 (.val respDay2ren), .delivered⟩ =
      .next s1 [] :=
  C6_status_only_key stateApproved ⟨.resp 200 (.val respDay2ren), .delivered⟩
    [("homeworks", .list [hwProj2]), ("current_date", .int 200)]
    [("homework_name", .str "proj2"), ("status", .str "approved")] []
    "proj2" "approved" "Работа проверена: ревьюеру всё понравилось. Ура!"
    rfl rfl rfl rfl rfl rfl

/-- C6 counterexample: after notifying (proj1, approved), a cycle whose
primary record is (proj2, approved) — a name change with the same
status — emits no notification, against the claim that a name change
alone counts as a change. -/
theorem C6_counterexample :
    isNext (runCycles initState
      [⟨.resp 200 (.val respDay1), .delivered⟩,
       ⟨.resp 200 (.val respDay2ren), .delivered⟩]) = true ∧
    sentOf (runCycles initState
      [⟨.resp 200 (.val respDay1), .delivered⟩,
       ⟨.resp 200 (.val respDay2ren), .delivered⟩]) = [] :=
  ⟨rfl, rfl⟩

/-- C9: `parse_status` raises a `KeyError` for a record whose
`homework_name` or `status` is absent or `None`, a `ValueError` for any
status string outside the verdict table `{approved, reviewing, rejected}`,
and for a record with both fields present and a known status returns
(purely) the formatted string built from the homework name and the mapped
verdict text. -/
theorem C9_parse_status_spec :
    (∀ hkvs, (dictGet hkvs "homework_name" = Option.none ∨
        dictGet hkvs "homework_name" = Option.some .none) →
      parse_status (.dict hkvs) =
        .error (.keyError "У homework нет имени")) ∧
    (∀ hkvs v, dictGet hkvs "homework_name" = Option.some v → v ≠ .none →
      (dictGet hkvs "status" = Option.none ∨
        dictGet hkvs "status" = Option.some .none) →
      parse_status (.dict hkvs) =
        .error (.keyError "У homework нет статуса")) ∧
    (∀ hkvs name st,
      dictGet hkvs "homework_name" = Option.some (.str name) →
      dictGet hkvs "status" = Option.some (.str st) →
      st ≠ "approved" → st ≠ "reviewing" → st ≠ "rejected" →
      parse_status (.dict hkvs) =
        .error (.valueError ("Ошибка статуса homework : " ++ st))) ∧
    (∀ hkvs name st verdict,
      dictGet hkvs "homework_name" = Option.some (.str name) →
      dictGet hkvs "status" = Option.some (.str st) →
      verdictLookup (.str st) = Option.some verdict →
      parse_status (.dict hkvs) = .ok (statusMessage name verdict)) := by
  refine ⟨fun hkvs h => ?_, fun hkvs v hv1 hv2 h => ?_,
    fun hkvs name st h1 h2 n1 n2 n3 => ?_,
    fun hkvs name st verdict h1 h2 hv => ?_⟩
  · rcases h with h1 | h1 <;> simp [parse_status, pyGet, h1]
  · rcases h with h3 | h3 <;>
      cases v <;>
        first
          | exact absurd rfl hv2
          | simp [parse_status, pyGet, hv1, h3]
  · have e1 : ("approved" == st) = false :=
      beq_eq_false_iff_ne.mpr (Ne.symm n1)
    have e2 : ("reviewing" == st) = false :=
      beq_eq_false_iff_ne.mpr (Ne.symm n2)
    have e3 : ("rejected" == st) = false :=
      beq_eq_false_iff_ne.mpr (Ne.symm n3)
    have hvl : verdictLookup (.str st) = Option.none := by
      simp [verdictLookup, HOMEWORK_VERDICTS, List.find?, e1, e2, e3]
    simp [parse_status, pyGet, h1, h2, hvl, pyStr]
  · simp [parse_status, pyGet, h1, h2, hv, pyStr]

/-- C9 witness: a record without a status raises the `KeyError`, an
unknown status raises the `ValueError`, and the `approved` record formats
to the message carrying the name and the mapped verdict. -/
theorem C9_parse_status_spec_witness :
    parse_status (.dict [("homework_name", .str "p")]) =
      .error (.keyError "У homework нет статуса") ∧
    parse_status (.dict [("homework_name", .str "p"),
        ("status", .str "weird")]) =
      .error (.valueError ("Ошибка статуса homework : " ++ "weird")) ∧
    parse_status (.dict [("homework_name", .str "proj1"),
        ("status", .str "approved")]) =
      .ok (statusMessage "proj1"
        "Работа проверена: ревьюеру всё понравилось. Ура!") :=
  ⟨C9_parse_status_spec.2.1 _ (.str "p") rfl
      (fun h => PyVal.noConfusion h) (Or.inl rfl),
   C9_parse_status_spec.2.2.1 _ "p" "weird" rfl rfl
      (by decide) (by decide) (by decide),
   C9_parse_status_spec.2.2.2 _ "proj1" "approved"
      "Работа проверена: ревьюеру всё понравилось. Ура!" rfl rfl rfl⟩
